import Mathlib

/-!
Verification of the hatch-line generation engine of `src/lib/three-utils.ts`
(hatchplot3d).

The embedding works over exact rationals (`ℚ`), giving the exact-real
semantics of the floating-point source.  The only steps of the source that
produce irrational values are
  * vector normalisation (`THREE.Vector3.normalize`, which divides by a
    square root),
  * the rotation `applyAxisAngle` (trigonometric functions of the hatch
    angle), and
  * `Math.tan`/`degToRad` for the spotlight cone.
Those values enter the pipeline only as the per-light basis vectors
(`lightDirection`, `hatchLineDirectionOnPlane`, `scanDirection`), the cosine
of the spotlight half-angle, and the near-plane radius.  The embedding takes
them as inputs (a `LightFrame`); every comparison against a normalised
quantity is expressed by an exact square-root-free equivalent (`normDotGT`,
`angleLeCos`, `angularAttenuation`) whose doc comment states the equivalence.
Everything else is a direct translation of the source.

Batteries marks `Rat.add`, `Rat.mul`, `Rat.inv` and `Rat.sub` irreducible,
which blocks `decide`/`rfl` evaluation of concrete rational computations;
the attribute line below restores the default reducibility inside this file
so concrete runs of the embedded engine can be evaluated in proofs.
-/

attribute [local semireducible] Rat.add Rat.mul Rat.inv Rat.sub

set_option maxRecDepth 100000

set_option maxHeartbeats 2000000

namespace HatchPlot

/-- A 3D vector with exact rational coordinates (`THREE.Vector3`). -/
structure Vec3 where
  x : ℚ
  y : ℚ
  z : ℚ
deriving DecidableEq, Repr

instance : Add Vec3 := ⟨fun a b => ⟨a.x + b.x, a.y + b.y, a.z + b.z⟩⟩

instance : Sub Vec3 := ⟨fun a b => ⟨a.x - b.x, a.y - b.y, a.z - b.z⟩⟩

instance : SMul ℚ Vec3 := ⟨fun q v => ⟨q * v.x, q * v.y, q * v.z⟩⟩

/-- The zero vector. -/
def v0 : Vec3 := ⟨0, 0, 0⟩

/-- Dot product (`THREE.Vector3.dot`). -/
def dot (a b : Vec3) : ℚ := a.x * b.x + a.y * b.y + a.z * b.z

/-- Cross product (`THREE.Vector3.cross`). -/
def cross (a b : Vec3) : Vec3 :=
  ⟨a.y * b.z - a.z * b.y, a.z * b.x - a.x * b.z, a.x * b.y - a.y * b.x⟩

/-- Squared length (`THREE.Vector3.lengthSq`). -/
def lengthSq (a : Vec3) : ℚ := dot a a

/-- Squared distance between two points (`THREE.Vector3.distanceToSquared`). -/
def distSq (a b : Vec3) : ℚ := lengthSq (a - b)

/-- A 4x4 matrix, entries named as in `THREE.Matrix4` (`mij` = row `i`,
column `j`). -/
structure Mat4 where
  m11 : ℚ
  m12 : ℚ
  m13 : ℚ
  m14 : ℚ
  m21 : ℚ
  m22 : ℚ
  m23 : ℚ
  m24 : ℚ
  m31 : ℚ
  m32 : ℚ
  m33 : ℚ
  m34 : ℚ
  m41 : ℚ
  m42 : ℚ
  m43 : ℚ
  m44 : ℚ
deriving DecidableEq, Repr

/-- The identity matrix. -/
def idMat4 : Mat4 :=
  ⟨1, 0, 0, 0, 0, 1, 0, 0, 0, 0, 1, 0, 0, 0, 0, 1⟩

/-- `THREE.Vector3.applyMatrix4`: applies the homogeneous transform and the
perspective divide.  The source computes `w = 1 / (m41*x + m42*y + m43*z + m44)`
and multiplies; for an affine matrix the divisor is `1`.  In `ℚ` a zero
divisor yields `0` (JS would yield `Infinity`); the spec makes a valid,
already-updated matrix the responsibility of the caller. -/
def applyMatrix4 (m : Mat4) (v : Vec3) : Vec3 :=
  let w := m.m41 * v.x + m.m42 * v.y + m.m43 * v.z + m.m44
  let invw := 1 / w
  ⟨(m.m11 * v.x + m.m12 * v.y + m.m13 * v.z + m.m14) * invw,
   (m.m21 * v.x + m.m22 * v.y + m.m23 * v.z + m.m24) * invw,
   (m.m31 * v.x + m.m32 * v.y + m.m33 * v.z + m.m34) * invw⟩

/-- A plane `normal ⬝ p + constant = 0` (`THREE.Plane`).  The source always
builds planes with `setFromNormalAndCoplanarPoint(n, p)`, i.e.
`constant = -(p ⬝ n)`. -/
structure Plane where
  normal : Vec3
  constant : ℚ
deriving DecidableEq, Repr

/-- `THREE.Plane.setFromNormalAndCoplanarPoint`. -/
def planeFromNormalAndCoplanarPoint (n p : Vec3) : Plane :=
  ⟨n, -(dot p n)⟩

/-- `THREE.Plane.distanceToPoint` (signed distance; exact for a unit
normal). -/
def distanceToPoint (pl : Plane) (p : Vec3) : ℚ :=
  dot pl.normal p + pl.constant

/-- `THREE.Plane.projectPoint`: `p - normal * distanceToPoint p`. -/
def projectPoint (pl : Plane) (p : Vec3) : Vec3 :=
  p - distanceToPoint pl p • pl.normal

/-- `THREE.Plane.intersectLine` on the segment from `a` to `b`: if the
denominator `normal ⬝ (b - a)` is zero the segment is parallel (a point is
returned only if the segment lies in the plane, where THREE returns its
start); otherwise the parameter `t = -(a ⬝ normal + constant) / denom` must
lie in `[0, 1]`.  Scaling `normal` and `constant` by a common nonzero factor
leaves this function unchanged, which justifies carrying unnormalised plane
normals where the source normalises (see the spotlight cutting plane). -/
def intersectLine (pl : Plane) (a b : Vec3) : Option Vec3 :=
  let dir := b - a
  let denom := dot pl.normal dir
  if denom = 0 then
    if distanceToPoint pl a = 0 then some a else none
  else
    let t := -(dot a pl.normal + pl.constant) / denom
    if t < 0 ∨ t > 1 then none
    else some (a + t • dir)

/-- Decides `num / Real.sqrt lensq > t` without square roots.  In the source
this comparison appears as `rawDotNL > threshold` where
`rawDotNL = n̂ ⬝ d` is the dot product of the normalised triangle normal
(`THREE.Triangle.getNormal`) with the (unit) light direction: writing `N` for
the unnormalised cross product, `rawDotNL = (N ⬝ d) / |N|`, so the comparison
is `num / √lensq > t` with `num = N ⬝ d`, `lensq = |N|²`.  For
`lensq = 0` THREE returns the zero normal, making `rawDotNL = 0`, and the
convention below agrees (`num` is then forced to `0`).  The equivalence for
`0 < lensq` is proved in `normDotGT_iff`. -/
def normDotGT (num lensq t : ℚ) : Bool :=
  if 0 ≤ t then decide (0 < num ∧ t ^ 2 * lensq < num ^ 2)
  else decide (0 ≤ num ∨ num ^ 2 < t ^ 2 * lensq)

/-- Decides `angle(v, w) ≤ θ` given `c = cos θ` (for `θ ∈ [0, π]`), without
square roots or arc cosines.  `THREE.Vector3.angleTo` returns
`acos(clamp(v ⬝ w / √(|v|²|w|²), -1, 1))` and `π/2` when a length is zero;
since `acos` is decreasing, `angle ≤ θ` holds iff `v ⬝ w ≥ c·|v||w|`, which
the sign analysis below decides exactly (the clamp never acts, by the
Cauchy-Schwarz inequality). -/
def angleLeCos (v w : Vec3) (c : ℚ) : Bool :=
  if lengthSq v * lengthSq w = 0 then decide (c ≤ 0)
  else if 0 ≤ c then
    decide (0 ≤ dot v w ∧ c ^ 2 * (lengthSq v * lengthSq w) ≤ dot v w ^ 2)
  else
    decide (0 ≤ dot v w ∨ dot v w ^ 2 ≤ c ^ 2 * (lengthSq v * lengthSq w))

/-- The spotlight angular attenuation `Math.pow(Math.cos(angleTo), 2)`
(three-utils.ts line 300).  Since `cos(angleTo v w) = v ⬝ w / √(|v|²|w|²)`
exactly (clamp inactive by Cauchy-Schwarz), its square is the rational value
below; a zero length gives angle `π/2`, cosine `0`, and the `ℚ` convention
`x / 0 = 0` agrees. -/
def angularAttenuation (v w : Vec3) : ℚ :=
  dot v w ^ 2 / (lengthSq v * lengthSq w)

/-- Insertion of a point into a list sorted by ascending key, used to model
the JS `Array.prototype.sort` with comparator `a ⬝ dir - b ⬝ dir`
(three-utils.ts lines 130 and 352).  Only the induced order matters to the
source (it keeps the first and last element), so a stable insertion sort is
an adequate model. -/
def insertByKey (key : Vec3 → ℚ) (p : Vec3) : List Vec3 → List Vec3
  | [] => [p]
  | q :: rest => if key p ≤ key q then p :: q :: rest else q :: insertByKey key p rest

/-- Sort a list of points by ascending key. -/
def sortByKey (key : Vec3 → ℚ) : List Vec3 → List Vec3
  | [] => []
  | p :: rest => insertByKey key p (sortByKey key rest)

/-- One hatch segment in world space (`HatchLineSegment`; the second
endpoint is called `end` in the source, which is a reserved word here). -/
structure HatchLineSegment where
  start : Vec3
  stop : Vec3
deriving DecidableEq, Repr

/-- A hatch path (`HatchPath`); the engine only ever emits single-segment
paths. -/
abbrev HatchPath := List HatchLineSegment

/-- The unnormalised triangle normal of `THREE.Triangle.getNormal(a, b, c)`:
the cross product `(c - b) × (a - b)`; THREE then divides by its length,
returning the zero vector when the length is zero. -/
def rawTriangleNormal (a b c : Vec3) : Vec3 :=
  cross (c - b) (a - b)

/-- `THREE.Triangle.getMidpoint`: the centroid `(a + b + c) / 3`. -/
def triMidpoint (a b c : Vec3) : Vec3 :=
  (1 / 3 : ℚ) • (a + b + c)

/-- The alternating directional alignment threshold of `processTriangle`
(three-utils.ts lines 92-98): `0.50` for even master-line index `i`, `0.1`
for odd. -/
def requiredFaceAlignmentDirectional (i : ℕ) : ℚ :=
  if i % 2 = 0 then 1 / 2 else 1 / 10

/-- The alternating spotlight alignment threshold of
`processTriangleForSpotlight` (three-utils.ts lines 289-295): `0.3` for even
master-line index `i`, `0.1` for odd. -/
def requiredFaceAlignmentSpotlight (i : ℕ) : ℚ :=
  if i % 2 = 0 then 3 / 10 else 1 / 10

/-- Edge/plane intersection collection shared by both triangle processors
(three-utils.ts lines 104-118 and 309-333 without the spotlight filters):
intersect the cutting plane with the three edges in order `AB`, `BC`, `CA`
and drop a point lying within squared distance `0.000001` of an already
collected one. -/
def dedupPush (pts : List Vec3) (pt : Vec3) : List Vec3 :=
  if pts.any (fun p => distSq p pt < 1 / 1000000) then pts else pts ++ [pt]

/-- Segment emission from the collected intersection points
(three-utils.ts lines 120-141): exactly two points give a segment when their
squared distance exceeds `0.00001`; more than two are sorted by their dot
product with the hatch direction and the extremes kept, under the same
degeneracy filter; fewer than two give nothing. -/
def emitSegment (sortDir : Vec3) (intersectionPoints : List Vec3) :
    Option HatchLineSegment :=
  match intersectionPoints with
  | [p1, p2] =>
      if 1 / 100000 < distSq p1 p2 then some ⟨p1, p2⟩ else none
  | pts =>
      if 2 < pts.length then
        let sorted := sortByKey (fun p => dot p sortDir) pts
        let pStart := sorted.headD v0
        let pEnd := sorted.getLastD v0
        if 1 / 100000 < distSq pStart pEnd then some ⟨pStart, pEnd⟩ else none
      else none

/-- One step of the edge loop of three-utils.ts lines 111-118: a candidate
intersection point is pushed subject to deduplication. -/
def candidateStep (hatchCuttingPlane : Plane) (pts : List Vec3)
    (e : Vec3 × Vec3) : List Vec3 :=
  match intersectLine hatchCuttingPlane e.1 e.2 with
  | none => pts
  | some pt => dedupPush pts pt

/-- The directional `processTriangle` closure (three-utils.ts lines 77-142)
for master-line index `i`.  The two threshold tests on the normalised
`rawDotNL` are expressed through `normDotGT`:
line 87 `rawDotNL > -0.001` rejects back and edge-on faces, and line 100
`dotNL < requiredFaceAlignment` is equivalent to
`rawDotNL > -requiredFaceAlignment`. -/
def processTriangle (i : ℕ) (lightDirection hatchLineDirectionOnPlane : Vec3)
    (hatchCuttingPlane : Plane) (worldMatrix : Mat4)
    (vA vB vC : Vec3) : Option HatchLineSegment :=
  let aW := applyMatrix4 worldMatrix vA
  let bW := applyMatrix4 worldMatrix vB
  let cW := applyMatrix4 worldMatrix vC
  let triNormal := rawTriangleNormal aW bW cW
  let nd := dot triNormal lightDirection
  let nl := lengthSq triNormal
  if normDotGT nd nl (-(1 / 1000)) then none
  else if normDotGT nd nl (-(requiredFaceAlignmentDirectional i)) then none
  else
    let intersectionPoints :=
      [(aW, bW), (bW, cW), (cW, aW)].foldl (candidateStep hatchCuttingPlane) []
    emitSegment hatchLineDirectionOnPlane intersectionPoints

/-- A quaternion `(x, y, z, w)`, stored by `THREE.Object3D` alongside the
Euler rotation and used by `Matrix4.compose`. -/
structure Quat where
  x : ℚ
  y : ℚ
  z : ℚ
  w : ℚ
deriving DecidableEq, Repr

/-- `THREE.Matrix4.compose(position, quaternion, scale)`: the rotation
matrix of the quaternion with columns scaled by `scale` and translation
`position`. -/
def composeTRS (p : Vec3) (q : Quat) (s : Vec3) : Mat4 :=
  let x2 := q.x + q.x
  let y2 := q.y + q.y
  let z2 := q.z + q.z
  let xx := q.x * x2
  let xy := q.x * y2
  let xz := q.x * z2
  let yy := q.y * y2
  let yz := q.y * z2
  let zz := q.z * z2
  let wx := q.w * x2
  let wy := q.w * y2
  let wz := q.w * z2
  { m11 := (1 - (yy + zz)) * s.x, m12 := (xy - wz) * s.y, m13 := (xz + wy) * s.z, m14 := p.x
    m21 := (xy + wz) * s.x, m22 := (1 - (xx + zz)) * s.y, m23 := (yz - wx) * s.z, m24 := p.y
    m31 := (xz - wy) * s.x, m32 := (yz + wx) * s.y, m33 := (1 - (xx + yy)) * s.z, m34 := p.z
    m41 := 0, m42 := 0, m43 := 0, m44 := 1 }

/-- A mesh as the engine consumes it: the `userData.isHelper` flag, the local
transform (`position`, `quaternion`, `scale`), the cached world matrix
`matrixWorld`, the position attribute as a list of local-space vertices, and
the optional index buffer.  Meshes in this application are parentless, so
`updateMatrixWorld(true)` sets `matrixWorld` to
`compose(position, quaternion, scale)`. -/
structure MeshData where
  isHelper : Bool
  position : Vec3
  quaternion : Quat
  scale : Vec3
  matrixWorld : Mat4
  positions : List Vec3
  index : Option (List ℕ)
deriving DecidableEq, Repr

/-- The state effect of `mesh.updateMatrixWorld(true)` on a parentless mesh
(three-utils.ts line 176): the cached `matrixWorld` is overwritten with the
matrix recomposed from the local transform. -/
def updateMatrixWorld (m : MeshData) : MeshData :=
  { m with matrixWorld := composeTRS m.position m.quaternion m.scale }

/-- Triangle extraction (three-utils.ts lines 144-153 and 384-393): indexed
geometry walks the index in groups of three, non-indexed geometry walks the
vertices in groups of three.  Out-of-range indices would be `undefined` in
JS; they are assumed absent and read as the zero vector. -/
def chunks3 {α : Type} : List α → List (α × α × α)
  | a :: b :: c :: rest => (a, b, c) :: chunks3 rest
  | _ => []

/-- The triangles of one mesh, as triples of local-space vertices. -/
def meshTriangles (m : MeshData) : List (Vec3 × Vec3 × Vec3) :=
  match m.index with
  | some idx =>
      (chunks3 idx).map (fun t =>
        (m.positions.getD t.1 v0, m.positions.getD t.2.1 v0, m.positions.getD t.2.2 v0))
  | none => chunks3 m.positions

/-- An axis-aligned box with both corners present (`THREE.Box3` in its
non-empty state; the empty box is `Option.none` in this embedding). -/
structure Box where
  boxMin : Vec3
  boxMax : Vec3
deriving DecidableEq, Repr

/-- Componentwise minimum. -/
def vmin (a b : Vec3) : Vec3 := ⟨min a.x b.x, min a.y b.y, min a.z b.z⟩

/-- Componentwise maximum. -/
def vmax (a b : Vec3) : Vec3 := ⟨max a.x b.x, max a.y b.y, max a.z b.z⟩

/-- `THREE.Box3.getCenter`: `(min + max) * 0.5`. -/
def boxCenter (b : Box) : Vec3 := (1 / 2 : ℚ) • (b.boxMin + b.boxMax)

/-- The axis-aligned bounding box of a list of points
(`BufferGeometry.computeBoundingBox`); `none` when there are no points. -/
def pointsBox (ps : List Vec3) : Option Box :=
  ps.foldl (fun acc p =>
    match acc with
    | none => some ⟨p, p⟩
    | some b => some ⟨vmin b.boxMin p, vmax b.boxMax p⟩) none

/-- The eight corners of a box. -/
def boxCorners (b : Box) : List Vec3 :=
  [⟨b.boxMin.x, b.boxMin.y, b.boxMin.z⟩, ⟨b.boxMin.x, b.boxMin.y, b.boxMax.z⟩,
   ⟨b.boxMin.x, b.boxMax.y, b.boxMin.z⟩, ⟨b.boxMin.x, b.boxMax.y, b.boxMax.z⟩,
   ⟨b.boxMax.x, b.boxMin.y, b.boxMin.z⟩, ⟨b.boxMax.x, b.boxMin.y, b.boxMax.z⟩,
   ⟨b.boxMax.x, b.boxMax.y, b.boxMin.z⟩, ⟨b.boxMax.x, b.boxMax.y, b.boxMax.z⟩]

/-- `THREE.Box3.applyMatrix4`: the axis-aligned hull of the eight
transformed corners. -/
def boxApplyMatrix4 (m : Mat4) (b : Box) : Option Box :=
  pointsBox ((boxCorners b).map (applyMatrix4 m))

/-- `THREE.Box3.union` lifted to possibly-empty boxes. -/
def boxUnion : Option Box → Option Box → Option Box
  | none, b => b
  | a, none => a
  | some a, some b => some ⟨vmin a.boxMin b.boxMin, vmax a.boxMax b.boxMax⟩

/-- The union bounding box of the non-helper meshes
(three-utils.ts lines 185-189, via `Box3.expandByObject`: the local geometry
bounding box transformed by the world matrix, unioned into the
accumulator). -/
def computeSceneBoundingBox (objectMeshes : List MeshData) : Option Box :=
  objectMeshes.foldl (fun acc m =>
    if m.isHelper then acc
    else
      match pointsBox m.positions with
      | none => acc
      | some lb => boxUnion acc (boxApplyMatrix4 m.matrixWorld lb)) none

/-- The scan extent of the scene (three-utils.ts lines 31-45): every vertex
of every non-helper mesh is taken to world space, projected onto the hatch
base plane, and its dot product with the scan direction folded into a
running minimum and maximum.  `none` models the `Infinity` initial values
surviving (no vertex seen, line 47). -/
def scanBounds (hatchBasePlane : Plane) (scanDirection : Vec3)
    (objectMeshes : List MeshData) : Option (ℚ × ℚ) :=
  objectMeshes.foldl (fun acc m =>
    if m.isHelper then acc
    else
      m.positions.foldl (fun acc v =>
        let vWorld := applyMatrix4 m.matrixWorld v
        let vProjected := projectPoint hatchBasePlane vWorld
        let scanVal := dot vProjected scanDirection
        match acc with
        | none => some (scanVal, scanVal)
        | some (mn, mx) => some (min mn scanVal, max mx scanVal)) acc) none

/-- The segments of one directional master hatch line
(three-utils.ts lines 53-158 inner body): the cutting plane sits at
`scanOffset` along the scan direction and every triangle of every non-helper
mesh is processed against it.  Line 57 recomputes
`normalize(cross(hatchLineDirectionOnPlane, lightDirection))`, the very
expression that defined `scanDirection` on line 28, so the embedding reuses
`scanDirection` together with the (always false here) degeneracy test of
line 58. -/
def segmentsForMasterLine (i : ℕ)
    (lightDirection hatchLineDirectionOnPlane scanDirection planePoint : Vec3)
    (scanOffset : ℚ) (objectMeshes : List MeshData) : List HatchLineSegment :=
  if lengthSq scanDirection < 1 / 10 then []
  else
    let masterLinePoint :=
      planePoint + (scanOffset - dot planePoint scanDirection) • scanDirection
    let hatchCuttingPlane := planeFromNormalAndCoplanarPoint scanDirection masterLinePoint
    (objectMeshes.filter (fun m => !m.isHelper)).flatMap (fun mesh =>
      (meshTriangles mesh).filterMap (fun t =>
        processTriangle i lightDirection hatchLineDirectionOnPlane hatchCuttingPlane
          mesh.matrixWorld t.1 t.2.1 t.2.2))

/-- `generateHatchLinesForDirectionalLight` (three-utils.ts lines 3-161).
`lightDirection` is the unit ray direction, `hatchLineDirectionOnPlane` the
hatch direction after the axis fallbacks, projection, normalisation and
rotation of lines 16-26 (degenerate iff it is the zero vector, which the
squared-length test of lines 21-24 detects), and `scanDirection` the
normalised cross product of line 28. -/
def generateHatchLinesForDirectionalLight (intensity : ℚ)
    (lightDirection hatchLineDirectionOnPlane scanDirection : Vec3)
    (objectMeshes : List MeshData) (sceneBoundingBox : Option Box) : List HatchPath :=
  match sceneBoundingBox with
  | none => []
  | some bb =>
    let planePoint := boxCenter bb
    let hatchBasePlane := planeFromNormalAndCoplanarPoint lightDirection planePoint
    if lengthSq hatchLineDirectionOnPlane < 1 / 10 then []
    else if lengthSq scanDirection < 1 / 10 then []
    else
      match scanBounds hatchBasePlane scanDirection objectMeshes with
      | none => []
      | some (minScan, maxScan) =>
        if maxScan - minScan < 1 / 1000 then []
        else
          let scanRange := maxScan - minScan
          let numHatchLines := max 1 (Int.floor (intensity * scanRange * 20))
          let lineSpacing := scanRange / ((numHatchLines : ℚ) + 1)
          (List.range numHatchLines.toNat).flatMap (fun k =>
            (segmentsForMasterLine (k + 1) lightDirection hatchLineDirectionOnPlane
              scanDirection planePoint (minScan + ((k : ℚ) + 1) * lineSpacing)
              objectMeshes).map (fun seg => [seg]))

/-- The fixed spotlight near-plane distance (three-utils.ts line 200). -/
def nearDist : ℚ := 1

/-- The spotlight candidate collector (three-utils.ts lines 309-333): each
edge is intersected with the cutting plane and the candidate point is kept
only if its angle to the light axis is within the cone half-angle
(`cosSpot` is the cosine of that half-angle) and its projection on the light
direction is at least `nearDist - 0.001`; duplicates within squared
distance `0.000001` are dropped. -/
def spotCandidateStep (cuttingPlane : Plane) (lightPosition lightDirection : Vec3)
    (cosSpot : ℚ) (pts : List Vec3) (e : Vec3 × Vec3) : List Vec3 :=
  match intersectLine cuttingPlane e.1 e.2 with
  | none => pts
  | some pt =>
      let vecToIntersect := pt - lightPosition
      if angleLeCos vecToIntersect lightDirection cosSpot then
        if nearDist - 1 / 1000 ≤ dot vecToIntersect lightDirection then
          dedupPush pts pt
        else pts
      else pts

/-- The collected spotlight candidates for one triangle. -/
def spotCandidates (cuttingPlane : Plane) (lightPosition lightDirection : Vec3)
    (cosSpot : ℚ) (aW bW cW : Vec3) : List Vec3 :=
  [(aW, bW), (bW, cW), (cW, aW)].foldl
    (spotCandidateStep cuttingPlane lightPosition lightDirection cosSpot) []

/-- Spotlight segment emission (three-utils.ts lines 335-367): as in the
directional case, but both endpoints of the candidate segment must pass the
cone test again before the segment is kept. -/
def emitSegmentSpot (lightPosition lightDirection : Vec3) (cosSpot : ℚ)
    (sortDir : Vec3) (intersectionPoints : List Vec3) : Option HatchLineSegment :=
  match intersectionPoints with
  | [p1, p2] =>
      if 1 / 100000 < distSq p1 p2 then
        if angleLeCos (p1 - lightPosition) lightDirection cosSpot &&
           angleLeCos (p2 - lightPosition) lightDirection cosSpot then
          some ⟨p1, p2⟩
        else none
      else none
  | pts =>
      if 2 < pts.length then
        let sorted := sortByKey (fun p => dot p sortDir) pts
        let pStart := sorted.headD v0
        let pEnd := sorted.getLastD v0
        if 1 / 100000 < distSq pStart pEnd then
          if angleLeCos (pStart - lightPosition) lightDirection cosSpot &&
             angleLeCos (pEnd - lightPosition) lightDirection cosSpot then
            some ⟨pStart, pEnd⟩
          else none
        else none
      else none

/-- `processTriangleForSpotlight` (three-utils.ts lines 262-368) for
master-line index `i`.  The quick cone rejection of line 277 is
`angleLeCos` on the centroid, line 282 is the back-face test of the
directional case, and the effective-light test of line 305,
`dotNL * angularAttenuation < requiredFaceAlignment` with
`dotNL = -rawDotNL`, is equivalent to
`(N ⬝ d) * attenuation / |N| > -requiredFaceAlignment`, i.e. `normDotGT`
on `nd * attenuation` (the attenuation is a nonnegative rational).
`sortDir` stands for the source comparator direction
`normalize(p2_near - p1_near)`, which equals the hatch direction on the
near plane; only its induced order is used. -/
def processTriangleForSpotlight (i : ℕ) (lightPosition lightDirection : Vec3)
    (cosSpot : ℚ) (cuttingPlane : Plane) (sortDir : Vec3) (worldMatrix : Mat4)
    (vA vB vC : Vec3) : Option HatchLineSegment :=
  let aW := applyMatrix4 worldMatrix vA
  let bW := applyMatrix4 worldMatrix vB
  let cW := applyMatrix4 worldMatrix vC
  let triNormal := rawTriangleNormal aW bW cW
  let triCenter := triMidpoint aW bW cW
  let vecToTriCenter := triCenter - lightPosition
  if !angleLeCos vecToTriCenter lightDirection cosSpot then none
  else
    let nd := dot triNormal lightDirection
    let nl := lengthSq triNormal
    if normDotGT nd nl (-(1 / 1000)) then none
    else
      let att := angularAttenuation vecToTriCenter lightDirection
      if normDotGT (nd * att) nl (-(requiredFaceAlignmentSpotlight i)) then none
      else
        emitSegmentSpot lightPosition lightDirection cosSpot sortDir
          (spotCandidates cuttingPlane lightPosition lightDirection cosSpot aW bW cW)

/-- The segments of one spotlight master hatch line (three-utils.ts lines
241-399 inner body).  The master line lies on the near plane at `scanOffset`
along the scan direction; its half length is
`sqrt(max(0, radius² - scanOffset²))`, and the `halfLength < 0.001` skip of
line 245 is expressed on the square.  The source builds the cutting plane
through the light position and the two near-plane endpoints
(`Triangle.getPlane`, normal `normalize((p2-p1) × (pos-p1))`); since
`p2 - p1` is a positive multiple of the hatch direction, that normal is the
normalisation of `hatchDir × (pos - center)`, and `intersectLine` is
invariant under the scaling, so the embedding carries the unnormalised
normal; the degenerate-plane test of line 255 detects exactly the zero
cross product (THREE normalises the zero vector to zero). -/
def spotMasterLineSegments (i : ℕ) (lightPosition lightDirection hatchDir scanDir : Vec3)
    (cosSpot radiusOnNearPlane scanOffset : ℚ)
    (objectMeshes : List MeshData) : List HatchLineSegment :=
  let nearPlaneCenter := lightPosition + nearDist • lightDirection
  let masterLineCenter := nearPlaneCenter + scanOffset • scanDir
  let halfLengthSq := max 0 (radiusOnNearPlane * radiusOnNearPlane - scanOffset * scanOffset)
  if halfLengthSq < 1 / 1000000 then []
  else
    let cuttingNormal := cross hatchDir (lightPosition - masterLineCenter)
    if lengthSq cuttingNormal = 0 then []
    else
      let cuttingPlane := planeFromNormalAndCoplanarPoint cuttingNormal lightPosition
      (objectMeshes.filter (fun m => !m.isHelper)).flatMap (fun mesh =>
        (meshTriangles mesh).filterMap (fun t =>
          processTriangleForSpotlight i lightPosition lightDirection cosSpot
            cuttingPlane hatchDir mesh.matrixWorld t.1 t.2.1 t.2.2))

/-- The spotlight branch of `generateHatchLines` (three-utils.ts lines
197-416).  As in the directional case, `hatchDir` and `scanDir` are the
results of the basis construction of lines 206-221 (zero when degenerate),
`cosSpot` the cosine of the cone half-angle
(`degToRad(light.spotAngle || 60)`), and `radiusOnNearPlane` the value
`nearDist * tan(spotAngleRad)` of line 227. -/
def generateHatchLinesForSpotlight (lightPosition lightDirection hatchDir scanDir : Vec3)
    (cosSpot radiusOnNearPlane intensity : ℚ)
    (objectMeshes : List MeshData) : List HatchPath :=
  if lengthSq hatchDir < 1 / 10 then []
  else if lengthSq scanDir < 1 / 10 then []
  else
    let numHatchLines := max 5 (Int.floor (intensity * 20))
    let lineSpacing := 2 * radiusOnNearPlane / ((numHatchLines : ℚ) + 1)
    (List.range numHatchLines.toNat).flatMap (fun k =>
      (spotMasterLineSegments (k + 1) lightPosition lightDirection hatchDir scanDir
        cosSpot radiusOnNearPlane (-radiusOnNearPlane + ((k : ℚ) + 1) * lineSpacing)
        objectMeshes).map (fun seg => [seg]))

/-- The light variants the engine distinguishes (`light.type`). -/
inductive LightType where
  | directional
  | spotlight
  | point
deriving DecidableEq, Repr

/-- A scene light record (`SceneLight`), with the fields the engine
reads. -/
structure SceneLight where
  typ : LightType
  position : Vec3
  target : Vec3
  intensity : ℚ
  hatchAngle : ℚ
  spotAngle : Option ℚ
deriving DecidableEq, Repr

/-- The per-light quantities whose construction in the source passes through
irrational operations, supplied to the embedding as inputs:
`dir = normalize(target - position)`; `hatchDir` and `scanDir` as described
at `generateHatchLinesForDirectionalLight` and
`generateHatchLinesForSpotlight` (the zero vector when the construction is
degenerate, which the squared-length tests in the source detect);
`cosSpot = cos(degToRad(spotAngle || 60))` (`1/2` for the default 60);
`radiusOnNearPlane = nearDist * tan(degToRad(spotAngle || 60))`. -/
structure LightFrame where
  dir : Vec3
  hatchDir : Vec3
  scanDir : Vec3
  cosSpot : ℚ
  radiusOnNearPlane : ℚ
deriving DecidableEq, Repr

/-- The camera argument of `generateHatchLines`; the source names it
`_camera` and never reads it. -/
structure Camera where
  projectionMatrix : Mat4
deriving DecidableEq, Repr

/-- The hatch paths one light contributes (the body of the `lights.forEach`
of three-utils.ts lines 179-423): directional lights go through the
scene-bounding-box pipeline, spotlights through the cone pipeline, point and
unsupported lights contribute nothing (lines 417-422). -/
def hatchPathsForLight (frame : LightFrame) (objectMeshes : List MeshData)
    (light : SceneLight) : List HatchPath :=
  match light.typ with
  | .directional =>
      generateHatchLinesForDirectionalLight light.intensity frame.dir
        frame.hatchDir frame.scanDir objectMeshes
        (computeSceneBoundingBox objectMeshes)
  | .spotlight =>
      generateHatchLinesForSpotlight light.position frame.dir frame.hatchDir
        frame.scanDir frame.cosSpot frame.radiusOnNearPlane light.intensity
        objectMeshes
  | .point => []

/-- The meshes after the `updateMatrixWorld` pass of three-utils.ts lines
174-177 (helpers are skipped). -/
def updatedMeshes (objectMeshes : List MeshData) : List MeshData :=
  objectMeshes.map (fun m => if m.isHelper then m else updateMatrixWorld m)

/-- `generateHatchLines` (three-utils.ts lines 163-426).  `frameOf` supplies
each light with its `LightFrame` (see there).  An empty mesh list or an
empty light list short-circuits to the empty output before any work; the
world matrices are refreshed, and every light appends its paths in
order. -/
def generateHatchLines (frameOf : SceneLight → LightFrame)
    (objectMeshes : List MeshData) (lights : List SceneLight)
    (_camera : Camera) : List HatchPath :=
  if objectMeshes.isEmpty || lights.isEmpty then []
  else
    let meshes := updatedMeshes objectMeshes
    lights.flatMap (fun light => hatchPathsForLight (frameOf light) meshes light)

/-- The final state of the mesh array after a `generateHatchLines` call:
when the call does any work, every non-helper mesh has had its
`matrixWorld` overwritten by `updateMatrixWorld(true)` (three-utils.ts
lines 170-177); all other fields are untouched. -/
def generateHatchLinesFinalMeshes (objectMeshes : List MeshData)
    (lights : List SceneLight) : List MeshData :=
  if objectMeshes.isEmpty || lights.isEmpty then objectMeshes
  else updatedMeshes objectMeshes

/-- `projectToScreen` (three-utils.ts lines 485-490, identical in the
earlier revision kept as part_002): apply the combined projection matrix
(with its perspective divide) and scale the normalised device coordinates
by half the viewport size, with no translation. -/
def projectToScreen (vector3 : Vec3) (projectionMatrix : Mat4)
    (width height : ℚ) : ℚ × ℚ :=
  let projected := applyMatrix4 projectionMatrix vector3
  (projected.x * (width / 2), projected.y * (height / 2))

/-! ### Helper lemmas -/

theorem lengthSq_nonneg (v : Vec3) : 0 ≤ lengthSq v := by
  unfold lengthSq dot
  nlinarith [sq_nonneg v.x, sq_nonneg v.y, sq_nonneg v.z]

theorem lengthSq_eq_zero_iff (v : Vec3) : lengthSq v = 0 ↔ v = v0 := by
  constructor
  · intro h
    unfold lengthSq dot at h
    have hx : v.x = 0 := by nlinarith [sq_nonneg v.x, sq_nonneg v.y, sq_nonneg v.z]
    have hy : v.y = 0 := by nlinarith [sq_nonneg v.x, sq_nonneg v.y, sq_nonneg v.z]
    have hz : v.z = 0 := by nlinarith [sq_nonneg v.x, sq_nonneg v.y, sq_nonneg v.z]
    cases v
    simp_all [v0]
  · rintro rfl
    simp [lengthSq, dot, v0]

theorem dot_v0_left (d : Vec3) : dot v0 d = 0 := by simp [dot, v0]

/-- `normDotGT` decides `num / √lensq > t` exactly when `lensq` is
positive. -/
theorem normDotGT_iff (num lensq t : ℚ) (hL : 0 < lensq) :
    normDotGT num lensq t = true ↔
      (t : ℝ) * Real.sqrt (lensq : ℝ) < (num : ℝ) := by
  have hL0 : (0 : ℝ) < (lensq : ℝ) := by exact_mod_cast hL
  have hspos : 0 < Real.sqrt (lensq : ℝ) := Real.sqrt_pos.mpr hL0
  have hssq : Real.sqrt (lensq : ℝ) ^ 2 = (lensq : ℝ) := Real.sq_sqrt hL0.le
  unfold normDotGT
  by_cases ht : (0 : ℚ) ≤ t
  · rw [if_pos ht]
    simp only [decide_eq_true_eq]
    have ht' : (0 : ℝ) ≤ (t : ℝ) := by exact_mod_cast ht
    have hts : 0 ≤ (t : ℝ) * Real.sqrt (lensq : ℝ) := mul_nonneg ht' hspos.le
    constructor
    · rintro ⟨h1, h2⟩
      have h1' : (0 : ℝ) < (num : ℝ) := by exact_mod_cast h1
      have h2' : (t : ℝ) ^ 2 * (lensq : ℝ) < (num : ℝ) ^ 2 := by exact_mod_cast h2
      have h2'' : ((t : ℝ) * Real.sqrt (lensq : ℝ)) ^ 2 < (num : ℝ) ^ 2 := by
        rw [mul_pow, hssq]; exact h2'
      exact lt_of_pow_lt_pow_left₀ 2 h1'.le h2''
    · intro h
      have h1' : (0 : ℝ) < (num : ℝ) := lt_of_le_of_lt hts h
      refine ⟨by exact_mod_cast h1', ?_⟩
      have h2'' : ((t : ℝ) * Real.sqrt (lensq : ℝ)) ^ 2 < (num : ℝ) ^ 2 :=
        pow_lt_pow_left₀ h hts (by norm_num)
      rw [mul_pow, hssq] at h2''
      exact_mod_cast h2''
  · rw [if_neg ht]
    simp only [decide_eq_true_eq]
    push_neg at ht
    have ht' : (t : ℝ) < 0 := by exact_mod_cast ht
    have htsneg : (t : ℝ) * Real.sqrt (lensq : ℝ) < 0 :=
      mul_neg_of_neg_of_pos ht' hspos
    constructor
    · rintro (h | h)
      · have h' : (0 : ℝ) ≤ (num : ℝ) := by exact_mod_cast h
        exact lt_of_lt_of_le htsneg h'
      · have h' : (num : ℝ) ^ 2 < (t : ℝ) ^ 2 * (lensq : ℝ) := by exact_mod_cast h
        have h'' : (-(num : ℝ)) ^ 2 < (-((t : ℝ) * Real.sqrt (lensq : ℝ))) ^ 2 := by
          rw [neg_sq, neg_sq, mul_pow, hssq]
          exact h'
        have := lt_of_pow_lt_pow_left₀ 2 (by linarith : (0:ℝ) ≤ -((t : ℝ) * Real.sqrt (lensq : ℝ))) h''
        linarith
    · intro h
      by_cases hn : (0 : ℚ) ≤ num
      · exact Or.inl hn
      · push_neg at hn
        have hn' : (num : ℝ) < 0 := by exact_mod_cast hn
        right
        have h'' : (-(num : ℝ)) ^ 2 < (-((t : ℝ) * Real.sqrt (lensq : ℝ))) ^ 2 :=
          pow_lt_pow_left₀ (by linarith) (by linarith) (by norm_num)
        rw [neg_sq, neg_sq, mul_pow, hssq] at h''
        exact_mod_cast h''

/-- When the raw normal is degenerate (zero cross product), the back-face
test of line 87 always culls the triangle: THREE returns the zero normal,
`rawDotNL = 0 > -0.001`. -/
theorem normDotGT_backface_of_len_zero (d v : Vec3) (h : lengthSq v = 0) :
    normDotGT (dot v d) (lengthSq v) (-(1 / 1000)) = true := by
  have hv : v = v0 := (lengthSq_eq_zero_iff v).mp h
  subst hv
  rw [dot_v0_left]
  unfold normDotGT
  norm_num

theorem requiredFaceAlignmentDirectional_ge (i : ℕ) :
    1 / 10 ≤ requiredFaceAlignmentDirectional i := by
  unfold requiredFaceAlignmentDirectional
  split <;> norm_num

theorem requiredFaceAlignmentSpotlight_ge (i : ℕ) :
    1 / 10 ≤ requiredFaceAlignmentSpotlight i := by
  unfold requiredFaceAlignmentSpotlight
  split <;> norm_num

theorem emitSegment_dist (sd : Vec3) (pts : List Vec3) (seg : HatchLineSegment)
    (h : emitSegment sd pts = some seg) :
    1 / 100000 < distSq seg.start seg.stop := by
  unfold emitSegment at h
  dsimp only at h
  split at h
  · split at h
    · cases h
      assumption
    · cases h
  · split at h
    · split at h
      · cases h
        assumption
      · cases h
    · cases h

theorem mem_dedupPush (pts : List Vec3) (pt q : Vec3) (h : q ∈ dedupPush pts pt) :
    q ∈ pts ∨ q = pt := by
  unfold dedupPush at h
  split at h
  · exact Or.inl h
  · rcases List.mem_append.mp h with h | h
    · exact Or.inl h
    · simp at h
      exact Or.inr h

theorem mem_insertByKey (key : Vec3 → ℚ) (p q : Vec3) (l : List Vec3)
    (h : q ∈ insertByKey key p l) : q = p ∨ q ∈ l := by
  induction l with
  | nil => simp [insertByKey] at h; exact Or.inl h
  | cons r rest ih =>
    unfold insertByKey at h
    split at h
    · rcases List.mem_cons.mp h with h | h
      · exact Or.inl h
      · exact Or.inr h
    · rcases List.mem_cons.mp h with h | h
      · exact Or.inr (by simp [h])
      · rcases ih h with h | h
        · exact Or.inl h
        · exact Or.inr (List.mem_cons_of_mem _ h)

theorem mem_sortByKey (key : Vec3 → ℚ) (l : List Vec3) (q : Vec3)
    (h : q ∈ sortByKey key l) : q ∈ l := by
  induction l with
  | nil => simp [sortByKey] at h
  | cons p rest ih =>
    unfold sortByKey at h
    rcases mem_insertByKey key p q _ h with h | h
    · simp [h]
    · exact List.mem_cons_of_mem _ (ih h)

theorem length_insertByKey (key : Vec3 → ℚ) (p : Vec3) (l : List Vec3) :
    (insertByKey key p l).length = l.length + 1 := by
  induction l with
  | nil => rfl
  | cons r rest ih =>
    unfold insertByKey
    split
    · rfl
    · simp [ih]

theorem length_sortByKey (key : Vec3 → ℚ) (l : List Vec3) :
    (sortByKey key l).length = l.length := by
  induction l with
  | nil => rfl
  | cons p rest ih =>
    unfold sortByKey
    rw [length_insertByKey, ih]
    rfl

theorem headD_mem (l : List Vec3) (d : Vec3) (h : l ≠ []) : l.headD d ∈ l := by
  cases l with
  | nil => exact absurd rfl h
  | cons a rest => simp

theorem getLastD_mem (l : List Vec3) (d : Vec3) (h : l ≠ []) : l.getLastD d ∈ l := by
  induction l generalizing d with
  | nil => exact absurd rfl h
  | cons a rest ih =>
    cases rest with
    | nil => simp [List.getLastD]
    | cons b rest2 =>
      rw [List.getLastD_cons]
      exact List.mem_cons_of_mem _ (ih _ (by simp))

theorem emitSegmentSpot_props (pos d : Vec3) (cs : ℚ) (sd : Vec3)
    (pts : List Vec3) (seg : HatchLineSegment)
    (h : emitSegmentSpot pos d cs sd pts = some seg) :
    1 / 100000 < distSq seg.start seg.stop ∧
    angleLeCos (seg.start - pos) d cs = true ∧
    angleLeCos (seg.stop - pos) d cs = true ∧
    seg.start ∈ pts ∧ seg.stop ∈ pts := by
  unfold emitSegmentSpot at h
  dsimp only at h
  split at h
  · rename_i p1 p2
    split at h
    · split at h
      · rename_i hd hcone
        rcases Bool.and_eq_true_iff.mp hcone with ⟨h1, h2⟩
        cases h
        exact ⟨hd, h1, h2, by simp, by simp⟩
      · cases h
    · cases h
  · rename_i pts' hnot2
    split at h
    · rename_i hlen
      split at h
      · split at h
        · rename_i hd hcone
          rcases Bool.and_eq_true_iff.mp hcone with ⟨h1, h2⟩
          cases h
          have hne : sortByKey (fun p => dot p sd) pts ≠ [] := by
            intro hnil
            have := length_sortByKey (fun p => dot p sd) pts
            rw [hnil] at this
            simp at this
            omega
          refine ⟨hd, h1, h2, ?_, ?_⟩
          · exact mem_sortByKey _ _ _ (headD_mem _ _ hne)
          · exact mem_sortByKey _ _ _ (getLastD_mem _ _ hne)
        · cases h
      · cases h
    · cases h

theorem spotCandidateStep_mem (pl : Plane) (pos d : Vec3) (cs : ℚ)
    (pts : List Vec3) (e : Vec3 × Vec3) (q : Vec3)
    (hacc : ∀ r ∈ pts,
      angleLeCos (r - pos) d cs = true ∧ nearDist - 1 / 1000 ≤ dot (r - pos) d)
    (h : q ∈ spotCandidateStep pl pos d cs pts e) :
    angleLeCos (q - pos) d cs = true ∧ nearDist - 1 / 1000 ≤ dot (q - pos) d := by
  unfold spotCandidateStep at h
  dsimp only at h
  split at h
  · exact hacc q h
  · rename_i pt hline
    split at h
    · rename_i hcone
      split at h
      · rename_i hnear
        rcases mem_dedupPush _ _ _ h with h | h
        · exact hacc q h
        · subst h
          exact ⟨hcone, hnear⟩
      · exact hacc q h
    · exact hacc q h

theorem spotCandidates_mem (pl : Plane) (pos d : Vec3) (cs : ℚ)
    (aW bW cW q : Vec3) (h : q ∈ spotCandidates pl pos d cs aW bW cW) :
    angleLeCos (q - pos) d cs = true ∧ nearDist - 1 / 1000 ≤ dot (q - pos) d := by
  unfold spotCandidates at h
  have step :
      ∀ (es : List (Vec3 × Vec3)) (acc : List Vec3),
        (∀ r ∈ acc,
          angleLeCos (r - pos) d cs = true ∧ nearDist - 1 / 1000 ≤ dot (r - pos) d) →
        ∀ r ∈ es.foldl (spotCandidateStep pl pos d cs) acc,
          angleLeCos (r - pos) d cs = true ∧ nearDist - 1 / 1000 ≤ dot (r - pos) d := by
    intro es
    induction es with
    | nil => intro acc hacc r hr; exact hacc r hr
    | cons e rest ih =>
      intro acc hacc r hr
      exact ih _ (fun s hs => spotCandidateStep_mem pl pos d cs acc e s hacc hs) r hr
  exact step _ [] (by simp) q h

theorem processTriangle_gates (i : ℕ) (d hdir : Vec3) (pl : Plane) (M : Mat4)
    (a b c : Vec3) (seg : HatchLineSegment)
    (hsome : processTriangle i d hdir pl M a b c = some seg) :
    normDotGT
        (dot (rawTriangleNormal (applyMatrix4 M a) (applyMatrix4 M b) (applyMatrix4 M c)) d)
        (lengthSq (rawTriangleNormal (applyMatrix4 M a) (applyMatrix4 M b) (applyMatrix4 M c)))
        (-(1 / 1000)) = false ∧
    normDotGT
        (dot (rawTriangleNormal (applyMatrix4 M a) (applyMatrix4 M b) (applyMatrix4 M c)) d)
        (lengthSq (rawTriangleNormal (applyMatrix4 M a) (applyMatrix4 M b) (applyMatrix4 M c)))
        (-(requiredFaceAlignmentDirectional i)) = false := by
  unfold processTriangle at hsome
  dsimp only at hsome
  split at hsome
  · cases hsome
  · split at hsome
    · cases hsome
    · constructor
      · simp_all
      · simp_all

theorem processTriangle_dist (i : ℕ) (d hdir : Vec3) (pl : Plane) (M : Mat4)
    (a b c : Vec3) (seg : HatchLineSegment)
    (hsome : processTriangle i d hdir pl M a b c = some seg) :
    1 / 100000 < distSq seg.start seg.stop := by
  unfold processTriangle at hsome
  dsimp only at hsome
  split at hsome
  · cases hsome
  · split at hsome
    · cases hsome
    · exact emitSegment_dist _ _ _ hsome

theorem processTriangleForSpotlight_props (i : ℕ) (pos d : Vec3) (cs : ℚ)
    (pl : Plane) (sd : Vec3) (M : Mat4) (a b c : Vec3) (seg : HatchLineSegment)
    (hsome : processTriangleForSpotlight i pos d cs pl sd M a b c = some seg) :
    1 / 100000 < distSq seg.start seg.stop ∧
    angleLeCos (seg.start - pos) d cs = true ∧
    angleLeCos (seg.stop - pos) d cs = true ∧
    nearDist - 1 / 1000 ≤ dot (seg.start - pos) d ∧
    nearDist - 1 / 1000 ≤ dot (seg.stop - pos) d := by
  unfold processTriangleForSpotlight at hsome
  dsimp only at hsome
  split at hsome
  · cases hsome
  · split at hsome
    · cases hsome
    · split at hsome
      · cases hsome
      · obtain ⟨hd, h1, h2, hm1, hm2⟩ := emitSegmentSpot_props _ _ _ _ _ _ hsome
        have c1 := spotCandidates_mem _ _ _ _ _ _ _ _ hm1
        have c2 := spotCandidates_mem _ _ _ _ _ _ _ _ hm2
        exact ⟨hd, h1, h2, c1.2, c2.2⟩

theorem processTriangleForSpotlight_gates (i : ℕ) (pos d : Vec3) (cs : ℚ)
    (pl : Plane) (sd : Vec3) (M : Mat4) (a b c : Vec3) (seg : HatchLineSegment)
    (hsome : processTriangleForSpotlight i pos d cs pl sd M a b c = some seg) :
    normDotGT
        (dot (rawTriangleNormal (applyMatrix4 M a) (applyMatrix4 M b) (applyMatrix4 M c)) d)
        (lengthSq (rawTriangleNormal (applyMatrix4 M a) (applyMatrix4 M b) (applyMatrix4 M c)))
        (-(1 / 1000)) = false ∧
    normDotGT
        (dot (rawTriangleNormal (applyMatrix4 M a) (applyMatrix4 M b) (applyMatrix4 M c)) d *
          angularAttenuation
            (triMidpoint (applyMatrix4 M a) (applyMatrix4 M b) (applyMatrix4 M c) - pos) d)
        (lengthSq (rawTriangleNormal (applyMatrix4 M a) (applyMatrix4 M b) (applyMatrix4 M c)))
        (-(requiredFaceAlignmentSpotlight i)) = false := by
  unfold processTriangleForSpotlight at hsome
  dsimp only at hsome
  split at hsome
  · cases hsome
  · split at hsome
    · cases hsome
    · split at hsome
      · cases hsome
      · constructor
        · simp_all
        · simp_all

theorem segmentsForMasterLine_dist (i : ℕ) (d hd sd pp : Vec3) (so : ℚ)
    (meshes : List MeshData) (seg : HatchLineSegment)
    (hs : seg ∈ segmentsForMasterLine i d hd sd pp so meshes) :
    1 / 100000 < distSq seg.start seg.stop := by
  unfold segmentsForMasterLine at hs
  dsimp only at hs
  split at hs
  · simp at hs
  · obtain ⟨mesh, _, hseg⟩ := List.mem_flatMap.mp hs
    obtain ⟨t, _, hpt⟩ := List.mem_filterMap.mp hseg
    exact processTriangle_dist _ _ _ _ _ _ _ _ _ hpt

theorem generateHatchLinesForDirectionalLight_dist (intensity : ℚ)
    (d hd sd : Vec3) (meshes : List MeshData) (bbox : Option Box)
    (path : HatchPath) (seg : HatchLineSegment)
    (hp : path ∈ generateHatchLinesForDirectionalLight intensity d hd sd meshes bbox)
    (hs : seg ∈ path) :
    1 / 100000 < distSq seg.start seg.stop := by
  unfold generateHatchLinesForDirectionalLight at hp
  split at hp
  · simp at hp
  · dsimp only at hp
    split at hp
    · simp at hp
    · split at hp
      · simp at hp
      · split at hp
        · simp at hp
        · split at hp
          · simp at hp
          · obtain ⟨k, _, hpath⟩ := List.mem_flatMap.mp hp
            obtain ⟨seg', hseg', rfl⟩ := List.mem_map.mp hpath
            rw [List.mem_singleton.mp hs]
            exact segmentsForMasterLine_dist _ _ _ _ _ _ _ _ hseg'

theorem spotMasterLineSegments_props (i : ℕ) (pos d hd sd : Vec3)
    (cs r so : ℚ) (meshes : List MeshData) (seg : HatchLineSegment)
    (hs : seg ∈ spotMasterLineSegments i pos d hd sd cs r so meshes) :
    1 / 100000 < distSq seg.start seg.stop ∧
    angleLeCos (seg.start - pos) d cs = true ∧
    angleLeCos (seg.stop - pos) d cs = true ∧
    nearDist - 1 / 1000 ≤ dot (seg.start - pos) d ∧
    nearDist - 1 / 1000 ≤ dot (seg.stop - pos) d := by
  unfold spotMasterLineSegments at hs
  dsimp only at hs
  split at hs
  · simp at hs
  · split at hs
    · simp at hs
    · obtain ⟨mesh, _, hseg⟩ := List.mem_flatMap.mp hs
      obtain ⟨t, _, hpt⟩ := List.mem_filterMap.mp hseg
      exact processTriangleForSpotlight_props _ _ _ _ _ _ _ _ _ _ _ hpt

theorem generateHatchLinesForSpotlight_props (pos d hd sd : Vec3)
    (cs r intensity : ℚ) (meshes : List MeshData)
    (path : HatchPath) (seg : HatchLineSegment)
    (hp : path ∈ generateHatchLinesForSpotlight pos d hd sd cs r intensity meshes)
    (hs : seg ∈ path) :
    1 / 100000 < distSq seg.start seg.stop ∧
    angleLeCos (seg.start - pos) d cs = true ∧
    angleLeCos (seg.stop - pos) d cs = true ∧
    nearDist - 1 / 1000 ≤ dot (seg.start - pos) d ∧
    nearDist - 1 / 1000 ≤ dot (seg.stop - pos) d := by
  unfold generateHatchLinesForSpotlight at hp
  split at hp
  · simp at hp
  · split at hp
    · simp at hp
    · dsimp only at hp
      obtain ⟨k, _, hpath⟩ := List.mem_flatMap.mp hp
      obtain ⟨seg', hseg', rfl⟩ := List.mem_map.mp hpath
      rw [List.mem_singleton.mp hs]
      exact spotMasterLineSegments_props _ _ _ _ _ _ _ _ _ _ hseg'

/-- `generateHatchLines` on a nonempty mesh list is the concatenation of the
per-light outputs. -/
theorem generateHatchLines_eq_flatMap (frameOf : SceneLight → LightFrame)
    (objectMeshes : List MeshData) (lights : List SceneLight) (camera : Camera)
    (hm : ¬ objectMeshes.isEmpty = true) :
    generateHatchLines frameOf objectMeshes lights camera =
      lights.flatMap (fun light =>
        hatchPathsForLight (frameOf light) (updatedMeshes objectMeshes) light) := by
  unfold generateHatchLines
  cases lights with
  | nil => simp
  | cons l rest =>
    rw [if_neg]
    simp [hm]

/-! ### Concrete fixtures used by witnesses and counterexamples -/

/-- A single world-space triangle `(0,0,0), (1/100,0,0), (0,1,0)` on an
identity transform: thin in `x`, so its hatch chords are short. -/
def sampleMesh : MeshData :=
  { isHelper := false, position := v0, quaternion := ⟨0, 0, 0, 1⟩,
    scale := ⟨1, 1, 1⟩, matrixWorld := idMat4,
    positions := [⟨0, 0, 0⟩, ⟨1/100, 0, 0⟩, ⟨0, 1, 0⟩], index := none }

/-- A directional light at `(0,0,5)` aimed at the origin with intensity
`0.01`. -/
def sampleDirLight : SceneLight :=
  { typ := LightType.directional, position := ⟨0, 0, 5⟩, target := v0,
    intensity := 1/100, hatchAngle := 0, spotAngle := none }

/-- The light frame of `sampleDirLight`: ray direction `(0,0,-1)` (exact
normalisation of `target - position`), hatch direction `(1,0,0)` (the world
x axis survives projection and a zero rotation exactly), scan direction
`(0,1,0) = cross((1,0,0),(0,0,-1))` (exactly unit).  The spotlight fields
are unused. -/
def sampleDirFrame : LightFrame :=
  { dir := ⟨0, 0, -1⟩, hatchDir := ⟨1, 0, 0⟩, scanDir := ⟨0, 1, 0⟩,
    cosSpot := 1/2, radiusOnNearPlane := 433/250 }

/-- A camera; never read by the generator. -/
def sampleCamera : Camera := ⟨idMat4⟩

/-- A small tilted triangle with centroid `(0,0,2)` and raw normal
`(9/25, 0, -3/20)` (direction `(12,0,-5)`, so the normalised alignment
against the axis `(0,0,1)` is exactly `5/13 ≈ 0.385`).  It crosses only the
central master plane of a 5-line spotlight at the origin aimed along
`+z`. -/
def spotMesh : MeshData :=
  { isHelper := false, position := v0, quaternion := ⟨0, 0, 0, 1⟩,
    scale := ⟨1, 1, 1⟩, matrixWorld := idMat4,
    positions := [⟨0, 1/5, 2⟩, ⟨1/4, -1/10, 13/5⟩, ⟨-1/4, -1/10, 7/5⟩],
    index := none }

/-- The frame of a spotlight at the origin aimed at `(0,0,1)` with the
default 60-degree half-angle: `cosSpot = cos 60° = 1/2` exactly;
`radiusOnNearPlane` stands for `tan 60° = √3 ≈ 1.732` (any rational value is
a valid frame input; `433/250 = 1.732` is used). -/
def spotFrame : LightFrame :=
  { dir := ⟨0, 0, 1⟩, hatchDir := ⟨1, 0, 0⟩, scanDir := ⟨0, -1, 0⟩,
    cosSpot := 1/2, radiusOnNearPlane := 433/250 }

/-- A spotlight record matching `spotFrame`. -/
def spotLight : SceneLight :=
  { typ := LightType.spotlight, position := v0, target := ⟨0, 0, 1⟩,
    intensity := 1/4, hatchAngle := 0, spotAngle := some 60 }

/-- A directional light whose target coincides with its position: the ray
direction normalises to the zero vector and the scan-direction construction
degenerates (`normalize(cross(h, 0)) = 0`, squared length `0 < 0.1`). -/
def degLight : SceneLight :=
  { typ := LightType.directional, position := v0, target := v0,
    intensity := 1, hatchAngle := 0, spotAngle := none }

/-- The frame the source computes for `degLight`: the zero ray direction
leaves `(1,0,0)` unchanged by projection, but the scan direction collapses
to the zero vector. -/
def degFrame : LightFrame :=
  { dir := v0, hatchDir := ⟨1, 0, 0⟩, scanDir := v0,
    cosSpot := 1/2, radiusOnNearPlane := 433/250 }

/-- A frame assignment giving `degLight` its degenerate frame and every
other light `sampleDirFrame`. -/
def frameOfW (l : SceneLight) : LightFrame :=
  if l = degLight then degFrame else sampleDirFrame

/-- A mesh whose cached `matrixWorld` (the identity) is stale: the local
transform carries translation `(1,0,0)`. -/
def staleMesh : MeshData :=
  { isHelper := false, position := ⟨1, 0, 0⟩, quaternion := ⟨0, 0, 0, 1⟩,
    scale := ⟨1, 1, 1⟩, matrixWorld := idMat4, positions := [], index := none }

/-- The fields of a mesh other than the cached world matrix. -/
def meshLocalData (m : MeshData) :
    Bool × Vec3 × Quat × Vec3 × List Vec3 × Option (List ℕ) :=
  (m.isHelper, m.position, m.quaternion, m.scale, m.positions, m.index)

/-! ### Claim theorems -/

/-- C7: `generate_hatch_lines` with an empty mesh list returns the empty
path list for every light list and camera, and with an empty light list
returns the empty path list for every mesh list and camera; neither case is
an error. -/
theorem C7_empty_inputs :
    (∀ (frameOf : SceneLight → LightFrame) (lights : List SceneLight)
        (camera : Camera), generateHatchLines frameOf [] lights camera = []) ∧
    (∀ (frameOf : SceneLight → LightFrame) (objectMeshes : List MeshData)
        (camera : Camera), generateHatchLines frameOf objectMeshes [] camera = []) := by
  constructor
  · intro frameOf lights camera
    simp [generateHatchLines]
  · intro frameOf objectMeshes camera
    simp [generateHatchLines]

/-- C10: the output of `generateHatchLines` does not depend on the camera
argument: any two cameras give equal outputs for the same meshes and lights
(the source binds the parameter as `_camera` and never reads it). -/
theorem C10_camera_independence (frameOf : SceneLight → LightFrame)
    (objectMeshes : List MeshData) (lights : List SceneLight) (c1 c2 : Camera) :
    generateHatchLines frameOf objectMeshes lights c1 =
      generateHatchLines frameOf objectMeshes lights c2 := rfl

/-- C9: the projection function returns exactly
`((M*v).x * width/2, (M*v).y * height/2)` where `M*v` is the
homogeneous transform with perspective divide, with no additional
translation; in particular a point that `M` maps to the NDC origin projects
to the viewport centre `(0, 0)`. -/
theorem C9_projectToScreen_spec :
    (∀ (v : Vec3) (projectionMatrix : Mat4) (width height : ℚ),
        projectToScreen v projectionMatrix width height =
          ((applyMatrix4 projectionMatrix v).x * (width / 2),
           (applyMatrix4 projectionMatrix v).y * (height / 2))) ∧
    (∀ (v : Vec3) (projectionMatrix : Mat4) (width height : ℚ),
        (applyMatrix4 projectionMatrix v).x = 0 →
        (applyMatrix4 projectionMatrix v).y = 0 →
        projectToScreen v projectionMatrix width height = (0, 0)) := by
  constructor
  · intro v projectionMatrix width height
    rfl
  · intro v projectionMatrix width height hx hy
    simp [projectToScreen, hx, hy]

/-- C9 witness: the origin under the identity transform lands at the
viewport centre of an `800 × 600` viewport. -/
theorem C9_witness :
    (applyMatrix4 idMat4 v0).x = 0 ∧ (applyMatrix4 idMat4 v0).y = 0 ∧
    projectToScreen v0 idMat4 800 600 = (0, 0) :=
  ⟨by decide, by decide,
   C9_projectToScreen_spec.2 v0 idMat4 800 600 (by decide) (by decide)⟩

/-- C4 (amended): every segment emitted by `generateHatchLines`, for any
light type, has squared endpoint distance strictly greater than `1e-5` (the
source constant `0.00001`); shorter candidate segments are dropped. -/
theorem C4_min_segment_length (frameOf : SceneLight → LightFrame)
    (objectMeshes : List MeshData) (lights : List SceneLight) (camera : Camera)
    (path : HatchPath) (seg : HatchLineSegment)
    (hp : path ∈ generateHatchLines frameOf objectMeshes lights camera)
    (hs : seg ∈ path) :
    1 / 100000 < distSq seg.start seg.stop := by
  unfold generateHatchLines at hp
  split at hp
  · simp at hp
  · dsimp only at hp
    obtain ⟨light, _, hpath⟩ := List.mem_flatMap.mp hp
    unfold hatchPathsForLight at hpath
    split at hpath
    · exact generateHatchLinesForDirectionalLight_dist _ _ _ _ _ _ _ _ hpath hs
    · exact (generateHatchLinesForSpotlight_props _ _ _ _ _ _ _ _ _ _ hpath hs).1
    · simp at hpath

/-- C4 counterexample to the claim as stated: the thin `sampleMesh`
triangle under `sampleDirLight` yields exactly one segment, of squared
length `1/40000 = 2.5e-5`, which is below the claimed `1e-4` floor yet
emitted (the code drops only below `1e-5`). -/
theorem C4_counterexample :
    generateHatchLines (fun _ => sampleDirFrame) [sampleMesh] [sampleDirLight]
        sampleCamera =
      [[⟨⟨1/200, 1/2, 0⟩, ⟨0, 1/2, 0⟩⟩]] ∧
    distSq ⟨1/200, 1/2, 0⟩ ⟨0, 1/2, 0⟩ < 1/10000 := by
  constructor
  · decide
  · decide

/-- C4 witness: the single emitted segment of the `sampleMesh` scene indeed
has squared length above `1e-5`. -/
theorem C4_witness :
    [(⟨⟨1/200, 1/2, 0⟩, ⟨0, 1/2, 0⟩⟩ : HatchLineSegment)] ∈
        generateHatchLines (fun _ => sampleDirFrame) [sampleMesh]
          [sampleDirLight] sampleCamera ∧
    1 / 100000 < distSq (⟨1/200, 1/2, 0⟩ : Vec3) ⟨0, 1/2, 0⟩ :=
  ⟨by decide,
   C4_min_segment_length (fun _ => sampleDirFrame) [sampleMesh] [sampleDirLight]
     sampleCamera [⟨⟨1/200, 1/2, 0⟩, ⟨0, 1/2, 0⟩⟩] ⟨⟨1/200, 1/2, 0⟩, ⟨0, 1/2, 0⟩⟩
     (by decide) (by decide)⟩

/-- C5: every segment emitted for a spotlight has both endpoints inside the
cone (`angleLeCos` decides `angle(endpoint - position, d) ≤ half-angle`,
with `cosSpot` the cosine of the half-angle), and every emitted endpoint is
a surviving candidate intersection point, hence lies at least
`nearDist - 0.001` along the ray direction from the apex (the fixed
near-distance test of the source, line 326). -/
theorem C5_spotlight_cone_and_near (lightPosition lightDirection hatchDir scanDir : Vec3)
    (cosSpot radiusOnNearPlane intensity : ℚ) (objectMeshes : List MeshData)
    (path : HatchPath) (seg : HatchLineSegment)
    (hp : path ∈ generateHatchLinesForSpotlight lightPosition lightDirection
        hatchDir scanDir cosSpot radiusOnNearPlane intensity objectMeshes)
    (hs : seg ∈ path) :
    angleLeCos (seg.start - lightPosition) lightDirection cosSpot = true ∧
    angleLeCos (seg.stop - lightPosition) lightDirection cosSpot = true ∧
    nearDist - 1 / 1000 ≤ dot (seg.start - lightPosition) lightDirection ∧
    nearDist - 1 / 1000 ≤ dot (seg.stop - lightPosition) lightDirection := by
  obtain ⟨_, h1, h2, h3, h4⟩ :=
    generateHatchLinesForSpotlight_props _ _ _ _ _ _ _ _ _ _ hp hs
  exact ⟨h1, h2, h3, h4⟩

/-- C5 witness: the one segment the `spotMesh` scene produces for the
60-degree spotlight at the origin satisfies the cone and near-distance
bounds. -/
theorem C5_witness :
    [(⟨⟨1/6, 0, 12/5⟩, ⟨-1/6, 0, 8/5⟩⟩ : HatchLineSegment)] ∈
        generateHatchLinesForSpotlight v0 ⟨0, 0, 1⟩ ⟨1, 0, 0⟩ ⟨0, -1, 0⟩
          (1/2) (433/250) (1/4) [spotMesh] ∧
    (angleLeCos ((⟨1/6, 0, 12/5⟩ : Vec3) - v0) ⟨0, 0, 1⟩ (1/2) = true ∧
     angleLeCos ((⟨-1/6, 0, 8/5⟩ : Vec3) - v0) ⟨0, 0, 1⟩ (1/2) = true ∧
     nearDist - 1 / 1000 ≤ dot ((⟨1/6, 0, 12/5⟩ : Vec3) - v0) ⟨0, 0, 1⟩ ∧
     nearDist - 1 / 1000 ≤ dot ((⟨-1/6, 0, 8/5⟩ : Vec3) - v0) ⟨0, 0, 1⟩) :=
  ⟨by decide,
   C5_spotlight_cone_and_near v0 ⟨0, 0, 1⟩ ⟨1, 0, 0⟩ ⟨0, -1, 0⟩ (1/2) (433/250)
     (1/4) [spotMesh] [⟨⟨1/6, 0, 12/5⟩, ⟨-1/6, 0, 8/5⟩⟩]
     ⟨⟨1/6, 0, 12/5⟩, ⟨-1/6, 0, 8/5⟩⟩ (by decide) (by decide)⟩

/-- `processTriangle` returns `none` as soon as either threshold gate
fires. -/
theorem processTriangle_eq_none_of_gate (i : ℕ) (d hd : Vec3) (pl : Plane)
    (M : Mat4) (a b c : Vec3)
    (h :
      normDotGT
          (dot (rawTriangleNormal (applyMatrix4 M a) (applyMatrix4 M b) (applyMatrix4 M c)) d)
          (lengthSq (rawTriangleNormal (applyMatrix4 M a) (applyMatrix4 M b) (applyMatrix4 M c)))
          (-(1 / 1000)) = true ∨
      normDotGT
          (dot (rawTriangleNormal (applyMatrix4 M a) (applyMatrix4 M b) (applyMatrix4 M c)) d)
          (lengthSq (rawTriangleNormal (applyMatrix4 M a) (applyMatrix4 M b) (applyMatrix4 M c)))
          (-(requiredFaceAlignmentDirectional i)) = true) :
    processTriangle i d hd pl M a b c = none := by
  unfold processTriangle
  dsimp only
  rcases h with h | h
  · rw [if_pos h]
  · by_cases h1 :
      normDotGT
          (dot (rawTriangleNormal (applyMatrix4 M a) (applyMatrix4 M b) (applyMatrix4 M c)) d)
          (lengthSq (rawTriangleNormal (applyMatrix4 M a) (applyMatrix4 M b) (applyMatrix4 M c)))
          (-(1 / 1000)) = true
    · rw [if_pos h1]
    · rw [if_neg h1, if_pos h]

/-- C2: for every directional light with ray direction `d` and every
triangle, if the normalised triangle normal satisfies
`dot(n, d) ≥ -0.01` — stated below without square roots as
`-0.01 * |N| ≤ N ⬝ d` for the raw normal `N` — then `processTriangle`
contributes zero segments for that light, for every master line `i`,
cutting plane and intensity: either the back-face gate
(`rawDotNL > -0.001`) or the minimum alignment threshold (`0.1`, which
exceeds `0.01`) rejects the triangle. -/
theorem C2_backface_exclusion (i : ℕ) (d hd : Vec3) (pl : Plane) (M : Mat4)
    (a b c : Vec3)
    (hfacing :
      -(1/100 : ℝ) * Real.sqrt
          ((lengthSq (rawTriangleNormal (applyMatrix4 M a) (applyMatrix4 M b) (applyMatrix4 M c)) : ℚ) : ℝ) ≤
        ((dot (rawTriangleNormal (applyMatrix4 M a) (applyMatrix4 M b) (applyMatrix4 M c)) d : ℚ) : ℝ)) :
    processTriangle i d hd pl M a b c = none := by
  apply processTriangle_eq_none_of_gate
  set N := rawTriangleNormal (applyMatrix4 M a) (applyMatrix4 M b) (applyMatrix4 M c) with hN
  rcases eq_or_lt_of_le (lengthSq_nonneg N) with heq | hpos
  · exact Or.inl (normDotGT_backface_of_len_zero d N heq.symm)
  · right
    rw [normDotGT_iff _ _ _ hpos]
    have hs : 0 < Real.sqrt ((lengthSq N : ℚ) : ℝ) :=
      Real.sqrt_pos.mpr (by exact_mod_cast hpos)
    have hreq : ((1/10 : ℚ) : ℝ) ≤ (requiredFaceAlignmentDirectional i : ℝ) := by
      exact_mod_cast requiredFaceAlignmentDirectional_ge i
    have h1 : ((1/10 : ℚ) : ℝ) * Real.sqrt ((lengthSq N : ℚ) : ℝ) ≤
        (requiredFaceAlignmentDirectional i : ℝ) * Real.sqrt ((lengthSq N : ℚ) : ℝ) :=
      mul_le_mul_of_nonneg_right hreq hs.le
    have h2 : (1/100 : ℝ) * Real.sqrt ((lengthSq N : ℚ) : ℝ) <
        ((1/10 : ℚ) : ℝ) * Real.sqrt ((lengthSq N : ℚ) : ℝ) := by
      apply mul_lt_mul_of_pos_right _ hs
      norm_num
    push_cast at h1 h2 ⊢
    linarith [hfacing]

/-- C2 witness: the triangle `(0,0,0), (0,1,0), (1/100,0,0)` faces away
from the light direction `(0,0,-1)` (its raw normal is `(0,0,-1/100)`, so
`N ⬝ d = 1/100 > 0 ≥ -0.01·|N|`) and produces no segment. -/
theorem C2_witness :
    processTriangle 1 ⟨0, 0, -1⟩ ⟨1, 0, 0⟩ ⟨⟨0, 1, 0⟩, -(1/2)⟩ idMat4
      ⟨0, 0, 0⟩ ⟨0, 1, 0⟩ ⟨1/100, 0, 0⟩ = none :=
  C2_backface_exclusion 1 ⟨0, 0, -1⟩ ⟨1, 0, 0⟩ ⟨⟨0, 1, 0⟩, -(1/2)⟩ idMat4
    ⟨0, 0, 0⟩ ⟨0, 1, 0⟩ ⟨1/100, 0, 0⟩ (by
      have e1 : dot (rawTriangleNormal (applyMatrix4 idMat4 ⟨0, 0, 0⟩)
          (applyMatrix4 idMat4 ⟨0, 1, 0⟩) (applyMatrix4 idMat4 ⟨1/100, 0, 0⟩))
          ⟨0, 0, -1⟩ = 1/100 := by decide
      have e2 : lengthSq (rawTriangleNormal (applyMatrix4 idMat4 ⟨0, 0, 0⟩)
          (applyMatrix4 idMat4 ⟨0, 1, 0⟩) (applyMatrix4 idMat4 ⟨1/100, 0, 0⟩)) =
          1/10000 := by decide
      rw [e1, e2]
      have h0 : 0 ≤ Real.sqrt ((1/10000 : ℚ) : ℝ) := Real.sqrt_nonneg _
      push_cast
      nlinarith)

/-- C1 (amended): a triangle is included for master scan line `i`
(1-based) only if its effective alignment meets the parity-alternating
threshold; for directional lights the thresholds are `0.5` (even `i`) /
`0.1` (odd `i`) on the alignment `dot(n, -d)`, while for spotlights they
are `0.3` (even) / `0.1` (odd) on the effective alignment
`dot(n, -d) * cos²(angle to axis)`.  Stated without square roots: the
emitted triangle satisfies `threshold · |N| ≤ -(N ⬝ d)` (directional)
resp. `threshold · |N| ≤ -(N ⬝ d) · attenuation` (spotlight). -/
theorem C1_alignment_thresholds :
    (∀ (i : ℕ) (d hd : Vec3) (pl : Plane) (M : Mat4) (a b c : Vec3)
        (seg : HatchLineSegment),
        processTriangle i d hd pl M a b c = some seg →
        (requiredFaceAlignmentDirectional i : ℝ) *
            Real.sqrt ((lengthSq (rawTriangleNormal (applyMatrix4 M a)
                (applyMatrix4 M b) (applyMatrix4 M c)) : ℚ) : ℝ) ≤
          -((dot (rawTriangleNormal (applyMatrix4 M a) (applyMatrix4 M b)
              (applyMatrix4 M c)) d : ℚ) : ℝ)) ∧
    (∀ (i : ℕ) (pos d : Vec3) (cs : ℚ) (pl : Plane) (sd : Vec3) (M : Mat4)
        (a b c : Vec3) (seg : HatchLineSegment),
        processTriangleForSpotlight i pos d cs pl sd M a b c = some seg →
        (requiredFaceAlignmentSpotlight i : ℝ) *
            Real.sqrt ((lengthSq (rawTriangleNormal (applyMatrix4 M a)
                (applyMatrix4 M b) (applyMatrix4 M c)) : ℚ) : ℝ) ≤
          -((dot (rawTriangleNormal (applyMatrix4 M a) (applyMatrix4 M b)
                (applyMatrix4 M c)) d *
              angularAttenuation (triMidpoint (applyMatrix4 M a)
                (applyMatrix4 M b) (applyMatrix4 M c) - pos) d : ℚ) : ℝ)) := by
  constructor
  · intro i d hd pl M a b c seg hsome
    obtain ⟨hb, ha⟩ := processTriangle_gates i d hd pl M a b c seg hsome
    set N := rawTriangleNormal (applyMatrix4 M a) (applyMatrix4 M b) (applyMatrix4 M c) with hN
    rcases eq_or_lt_of_le (lengthSq_nonneg N) with heq | hpos
    · exact absurd (normDotGT_backface_of_len_zero d N heq.symm)
        (by rw [hb]; simp)
    · have hiff := normDotGT_iff (dot N d) (lengthSq N)
        (-(requiredFaceAlignmentDirectional i)) hpos
      have hnot : ¬ ((-(requiredFaceAlignmentDirectional i) : ℚ) : ℝ) *
          Real.sqrt ((lengthSq N : ℚ) : ℝ) < ((dot N d : ℚ) : ℝ) := by
        rw [← hiff, ha]
        simp
      push_neg at hnot
      push_cast at hnot ⊢
      linarith
  · intro i pos d cs pl sd M a b c seg hsome
    obtain ⟨hb, ha⟩ := processTriangleForSpotlight_gates i pos d cs pl sd M a b c seg hsome
    set N := rawTriangleNormal (applyMatrix4 M a) (applyMatrix4 M b) (applyMatrix4 M c) with hN
    rcases eq_or_lt_of_le (lengthSq_nonneg N) with heq | hpos
    · exact absurd (normDotGT_backface_of_len_zero d N heq.symm)
        (by rw [hb]; simp)
    · have hiff := normDotGT_iff
        (dot N d * angularAttenuation (triMidpoint (applyMatrix4 M a)
          (applyMatrix4 M b) (applyMatrix4 M c) - pos) d)
        (lengthSq N) (-(requiredFaceAlignmentSpotlight i)) hpos
      have hnot : ¬ ((-(requiredFaceAlignmentSpotlight i) : ℚ) : ℝ) *
          Real.sqrt ((lengthSq N : ℚ) : ℝ) <
          ((dot N d * angularAttenuation (triMidpoint (applyMatrix4 M a)
            (applyMatrix4 M b) (applyMatrix4 M c) - pos) d : ℚ) : ℝ) := by
        rw [← hiff, ha]
        simp
      push_neg at hnot
      push_cast at hnot ⊢
      linarith

/-- C1 counterexample to the claim as stated (thresholds `0.5` / `0.1` for
both light types): at the even master line `i = 4` of a 60-degree spotlight
at the origin — the plane `y = 0` is exactly the fourth master cutting
plane of a 7-line sweep — a triangle with effective alignment `5/13 ≈ 0.385`
is included.  The emission succeeds, `normDotGT ... (-(1/2)) = true`
certifies `effective alignment < 1/2` at the Boolean level, and the final
conjunct restates it over `ℝ`: `-(N ⬝ d)·attenuation < (1/2)·|N|`. -/
theorem C1_counterexample :
    processTriangleForSpotlight 4 v0 ⟨0, 0, 1⟩ (1/2) ⟨⟨0, 1, 0⟩, 0⟩ ⟨1, 0, 0⟩
        idMat4 ⟨0, 2, 2⟩ ⟨1/2, -1, 16/5⟩ ⟨-1/2, -1, 4/5⟩ =
      some ⟨⟨1/3, 0, 14/5⟩, ⟨-1/3, 0, 6/5⟩⟩ ∧
    normDotGT
        (dot (rawTriangleNormal (applyMatrix4 idMat4 ⟨0, 2, 2⟩)
            (applyMatrix4 idMat4 ⟨1/2, -1, 16/5⟩)
            (applyMatrix4 idMat4 ⟨-1/2, -1, 4/5⟩)) ⟨0, 0, 1⟩ *
          angularAttenuation (triMidpoint (applyMatrix4 idMat4 ⟨0, 2, 2⟩)
            (applyMatrix4 idMat4 ⟨1/2, -1, 16/5⟩)
            (applyMatrix4 idMat4 ⟨-1/2, -1, 4/5⟩) - v0) ⟨0, 0, 1⟩)
        (lengthSq (rawTriangleNormal (applyMatrix4 idMat4 ⟨0, 2, 2⟩)
            (applyMatrix4 idMat4 ⟨1/2, -1, 16/5⟩)
            (applyMatrix4 idMat4 ⟨-1/2, -1, 4/5⟩)))
        (-(1/2)) = true ∧
    -((dot (rawTriangleNormal (applyMatrix4 idMat4 ⟨0, 2, 2⟩)
          (applyMatrix4 idMat4 ⟨1/2, -1, 16/5⟩)
          (applyMatrix4 idMat4 ⟨-1/2, -1, 4/5⟩)) ⟨0, 0, 1⟩ *
        angularAttenuation (triMidpoint (applyMatrix4 idMat4 ⟨0, 2, 2⟩)
          (applyMatrix4 idMat4 ⟨1/2, -1, 16/5⟩)
          (applyMatrix4 idMat4 ⟨-1/2, -1, 4/5⟩) - v0) ⟨0, 0, 1⟩ : ℚ) : ℝ) <
      (1/2 : ℝ) * Real.sqrt
        ((lengthSq (rawTriangleNormal (applyMatrix4 idMat4 ⟨0, 2, 2⟩)
            (applyMatrix4 idMat4 ⟨1/2, -1, 16/5⟩)
            (applyMatrix4 idMat4 ⟨-1/2, -1, 4/5⟩)) : ℚ) : ℝ) := by
  refine ⟨by decide, by decide, ?_⟩
  have h := (normDotGT_iff
    (dot (rawTriangleNormal (applyMatrix4 idMat4 ⟨0, 2, 2⟩)
        (applyMatrix4 idMat4 ⟨1/2, -1, 16/5⟩)
        (applyMatrix4 idMat4 ⟨-1/2, -1, 4/5⟩)) ⟨0, 0, 1⟩ *
      angularAttenuation (triMidpoint (applyMatrix4 idMat4 ⟨0, 2, 2⟩)
        (applyMatrix4 idMat4 ⟨1/2, -1, 16/5⟩)
        (applyMatrix4 idMat4 ⟨-1/2, -1, 4/5⟩) - v0) ⟨0, 0, 1⟩)
    (lengthSq (rawTriangleNormal (applyMatrix4 idMat4 ⟨0, 2, 2⟩)
        (applyMatrix4 idMat4 ⟨1/2, -1, 16/5⟩)
        (applyMatrix4 idMat4 ⟨-1/2, -1, 4/5⟩)))
    (-(1/2)) (by decide)).mp (by decide)
  push_cast at h ⊢
  linarith

/-- C1 witness: the amended thresholds are attained on concrete emissions:
the directional `sampleMesh` triangle emitted at the odd master line
`i = 1`, and the spotlight triangle of the counterexample emitted at the
even master line `i = 4`. -/
theorem C1_witness :
    ((requiredFaceAlignmentDirectional 1 : ℝ) *
        Real.sqrt ((lengthSq (rawTriangleNormal (applyMatrix4 idMat4 ⟨0, 0, 0⟩)
            (applyMatrix4 idMat4 ⟨1/100, 0, 0⟩)
            (applyMatrix4 idMat4 ⟨0, 1, 0⟩)) : ℚ) : ℝ) ≤
      -((dot (rawTriangleNormal (applyMatrix4 idMat4 ⟨0, 0, 0⟩)
          (applyMatrix4 idMat4 ⟨1/100, 0, 0⟩)
          (applyMatrix4 idMat4 ⟨0, 1, 0⟩)) ⟨0, 0, -1⟩ : ℚ) : ℝ)) ∧
    ((requiredFaceAlignmentSpotlight 4 : ℝ) *
        Real.sqrt ((lengthSq (rawTriangleNormal (applyMatrix4 idMat4 ⟨0, 2, 2⟩)
            (applyMatrix4 idMat4 ⟨1/2, -1, 16/5⟩)
            (applyMatrix4 idMat4 ⟨-1/2, -1, 4/5⟩)) : ℚ) : ℝ) ≤
      -((dot (rawTriangleNormal (applyMatrix4 idMat4 ⟨0, 2, 2⟩)
            (applyMatrix4 idMat4 ⟨1/2, -1, 16/5⟩)
            (applyMatrix4 idMat4 ⟨-1/2, -1, 4/5⟩)) ⟨0, 0, 1⟩ *
          angularAttenuation (triMidpoint (applyMatrix4 idMat4 ⟨0, 2, 2⟩)
            (applyMatrix4 idMat4 ⟨1/2, -1, 16/5⟩)
            (applyMatrix4 idMat4 ⟨-1/2, -1, 4/5⟩) - v0) ⟨0, 0, 1⟩ : ℚ) : ℝ)) :=
  ⟨C1_alignment_thresholds.1 1 ⟨0, 0, -1⟩ ⟨1, 0, 0⟩ ⟨⟨0, 1, 0⟩, -(1/2)⟩ idMat4
      ⟨0, 0, 0⟩ ⟨1/100, 0, 0⟩ ⟨0, 1, 0⟩ ⟨⟨1/200, 1/2, 0⟩, ⟨0, 1/2, 0⟩⟩ (by decide),
   C1_alignment_thresholds.2 4 v0 ⟨0, 0, 1⟩ (1/2) ⟨⟨0, 1, 0⟩, 0⟩ ⟨1, 0, 0⟩
      idMat4 ⟨0, 2, 2⟩ ⟨1/2, -1, 16/5⟩ ⟨-1/2, -1, 4/5⟩
      ⟨⟨1/3, 0, 14/5⟩, ⟨-1/3, 0, 6/5⟩⟩ (by decide)⟩

/-- C3: with a non-degenerate basis and scan range, the directional
generator sweeps exactly `max(1, floor(intensity * (maxScan - minScan) * 20))`
master hatch lines (1-based index `i = k + 1`) at spacing
`range / (numHatchLines + 1)` starting from `minScan`, while the spotlight
generator sweeps exactly `max(5, floor(intensity * 20))` master lines —
independent of any scan range — at spacing `2r / (numHatchLines + 1)`
across the near-plane disc. -/
theorem C3_master_line_count :
    (∀ (intensity : ℚ) (d hd sd : Vec3) (objectMeshes : List MeshData)
        (bb : Box) (minScan maxScan : ℚ),
        ¬ lengthSq hd < 1 / 10 →
        ¬ lengthSq sd < 1 / 10 →
        scanBounds (planeFromNormalAndCoplanarPoint d (boxCenter bb)) sd
            objectMeshes = some (minScan, maxScan) →
        ¬ maxScan - minScan < 1 / 1000 →
        generateHatchLinesForDirectionalLight intensity d hd sd objectMeshes
            (some bb) =
          (List.range (max 1 (Int.floor (intensity * (maxScan - minScan) * 20))).toNat).flatMap
            (fun k =>
              (segmentsForMasterLine (k + 1) d hd sd (boxCenter bb)
                  (minScan + ((k : ℚ) + 1) *
                    ((maxScan - minScan) /
                      ((max 1 (Int.floor (intensity * (maxScan - minScan) * 20)) : ℤ) + 1)))
                  objectMeshes).map (fun seg => [seg]))) ∧
    (∀ (pos d hd sd : Vec3) (cosSpot radiusOnNearPlane intensity : ℚ)
        (objectMeshes : List MeshData),
        ¬ lengthSq hd < 1 / 10 →
        ¬ lengthSq sd < 1 / 10 →
        generateHatchLinesForSpotlight pos d hd sd cosSpot radiusOnNearPlane
            intensity objectMeshes =
          (List.range (max 5 (Int.floor (intensity * 20))).toNat).flatMap
            (fun k =>
              (spotMasterLineSegments (k + 1) pos d hd sd cosSpot radiusOnNearPlane
                  (-radiusOnNearPlane + ((k : ℚ) + 1) *
                    (2 * radiusOnNearPlane /
                      ((max 5 (Int.floor (intensity * 20)) : ℤ) + 1)))
                  objectMeshes).map (fun seg => [seg]))) := by
  constructor
  · intro intensity d hd sd objectMeshes bb minScan maxScan h1 h2 hsb h3
    unfold generateHatchLinesForDirectionalLight
    dsimp only
    rw [if_neg h1, if_neg h2, hsb]
    dsimp only
    rw [if_neg h3]
  · intro pos d hd sd cosSpot radiusOnNearPlane intensity objectMeshes h1 h2
    unfold generateHatchLinesForSpotlight
    rw [if_neg h1, if_neg h2]

/-- C3 witness: the `sampleMesh` directional scene (scan range `1`,
intensity `0.01`, hence `max(1, ⌊0.2⌋) = 1` master line) and the `spotMesh`
spotlight scene (intensity `0.25`, hence `max(5, ⌊5⌋) = 5` master lines). -/
theorem C3_witness :
    scanBounds (planeFromNormalAndCoplanarPoint ⟨0, 0, -1⟩
        (boxCenter ⟨⟨0, 0, 0⟩, ⟨1/100, 1, 0⟩⟩)) ⟨0, 1, 0⟩ [sampleMesh] =
      some (0, 1) ∧
    generateHatchLinesForDirectionalLight (1/100) ⟨0, 0, -1⟩ ⟨1, 0, 0⟩
        ⟨0, 1, 0⟩ [sampleMesh] (some ⟨⟨0, 0, 0⟩, ⟨1/100, 1, 0⟩⟩) =
      (List.range (max 1 (Int.floor ((1/100 : ℚ) * (1 - 0) * 20))).toNat).flatMap
        (fun k =>
          (segmentsForMasterLine (k + 1) ⟨0, 0, -1⟩ ⟨1, 0, 0⟩ ⟨0, 1, 0⟩
              (boxCenter ⟨⟨0, 0, 0⟩, ⟨1/100, 1, 0⟩⟩)
              (0 + ((k : ℚ) + 1) *
                ((1 - 0) /
                  ((max 1 (Int.floor ((1/100 : ℚ) * (1 - 0) * 20)) : ℤ) + 1)))
              [sampleMesh]).map (fun seg => [seg])) ∧
    generateHatchLinesForSpotlight v0 ⟨0, 0, 1⟩ ⟨1, 0, 0⟩ ⟨0, -1, 0⟩ (1/2)
        (433/250) (1/4) [spotMesh] =
      (List.range (max 5 (Int.floor ((1/4 : ℚ) * 20))).toNat).flatMap
        (fun k =>
          (spotMasterLineSegments (k + 1) v0 ⟨0, 0, 1⟩ ⟨1, 0, 0⟩ ⟨0, -1, 0⟩
              (1/2) (433/250)
              (-(433/250) + ((k : ℚ) + 1) *
                (2 * (433/250) /
                  ((max 5 (Int.floor ((1/4 : ℚ) * 20)) : ℤ) + 1)))
              [spotMesh]).map (fun seg => [seg])) :=
  ⟨by decide,
   C3_master_line_count.1 (1/100) ⟨0, 0, -1⟩ ⟨1, 0, 0⟩ ⟨0, 1, 0⟩ [sampleMesh]
     ⟨⟨0, 0, 0⟩, ⟨1/100, 1, 0⟩⟩ 0 1 (by decide) (by decide) (by decide) (by decide),
   C3_master_line_count.2 v0 ⟨0, 0, 1⟩ ⟨1, 0, 0⟩ ⟨0, -1, 0⟩ (1/2) (433/250)
     (1/4) [spotMesh] (by decide) (by decide)⟩

/-- C6: a light whose basis construction is numerically degenerate — for a
directional light a degenerate hatch direction, a degenerate scan
direction, an empty union bounding box of the non-helper meshes, or a scan
range below `0.001`; for a spotlight a degenerate hatch or scan direction —
contributes zero paths, and `generateHatchLines` on a light list containing
it returns exactly the concatenation of the outputs for the lights before
and after it: the computation is never aborted. -/
theorem C6_degenerate_light_skipped (frameOf : SceneLight → LightFrame)
    (objectMeshes : List MeshData) (pre post : List SceneLight)
    (light : SceneLight) (camera : Camera)
    (hdeg :
      (light.typ = LightType.directional ∧
        (lengthSq (frameOf light).hatchDir < 1 / 10 ∨
         lengthSq (frameOf light).scanDir < 1 / 10 ∨
         computeSceneBoundingBox (updatedMeshes objectMeshes) = none ∨
         ∃ bb minScan maxScan,
           computeSceneBoundingBox (updatedMeshes objectMeshes) = some bb ∧
           scanBounds (planeFromNormalAndCoplanarPoint (frameOf light).dir
               (boxCenter bb)) (frameOf light).scanDir
               (updatedMeshes objectMeshes) = some (minScan, maxScan) ∧
           maxScan - minScan < 1 / 1000)) ∨
      (light.typ = LightType.spotlight ∧
        (lengthSq (frameOf light).hatchDir < 1 / 10 ∨
         lengthSq (frameOf light).scanDir < 1 / 10))) :
    hatchPathsForLight (frameOf light) (updatedMeshes objectMeshes) light = [] ∧
    generateHatchLines frameOf objectMeshes (pre ++ light :: post) camera =
      generateHatchLines frameOf objectMeshes pre camera ++
        generateHatchLines frameOf objectMeshes post camera := by
  have hempty : hatchPathsForLight (frameOf light) (updatedMeshes objectMeshes) light = [] := by
    rcases hdeg with ⟨htyp, hcase⟩ | ⟨htyp, hcase⟩
    · unfold hatchPathsForLight
      rw [htyp]
      unfold generateHatchLinesForDirectionalLight
      rcases hcase with hc | hc | hc | hc
      · cases hbb : computeSceneBoundingBox (updatedMeshes objectMeshes) with
        | none => rfl
        | some bb =>
          dsimp only
          rw [if_pos hc]
      · cases hbb : computeSceneBoundingBox (updatedMeshes objectMeshes) with
        | none => rfl
        | some bb =>
          dsimp only
          by_cases h1 : lengthSq (frameOf light).hatchDir < 1 / 10
          · rw [if_pos h1]
          · rw [if_neg h1, if_pos hc]
      · rw [hc]
      · obtain ⟨bb, minScan, maxScan, hbb, hsb, hrange⟩ := hc
        rw [hbb]
        dsimp only
        by_cases h1 : lengthSq (frameOf light).hatchDir < 1 / 10
        · rw [if_pos h1]
        · rw [if_neg h1]
          by_cases h2 : lengthSq (frameOf light).scanDir < 1 / 10
          · rw [if_pos h2]
          · rw [if_neg h2, hsb]
            dsimp only
            rw [if_pos hrange]
    · unfold hatchPathsForLight
      rw [htyp]
      unfold generateHatchLinesForSpotlight
      rcases hcase with hc | hc
      · rw [if_pos hc]
      · by_cases h1 : lengthSq (frameOf light).hatchDir < 1 / 10
        · rw [if_pos h1]
        · rw [if_neg h1, if_pos hc]
  refine ⟨hempty, ?_⟩
  by_cases hm : objectMeshes.isEmpty = true
  · unfold generateHatchLines
    simp [hm]
  · rw [generateHatchLines_eq_flatMap frameOf objectMeshes _ camera hm,
      generateHatchLines_eq_flatMap frameOf objectMeshes pre camera hm,
      generateHatchLines_eq_flatMap frameOf objectMeshes post camera hm,
      List.flatMap_append, List.flatMap_cons, hempty]
    simp

/-- C6 witness: `degLight` (a directional light aimed at its own position,
whose scan direction degenerates to the zero vector) contributes nothing,
and the `sampleDirLight` after it is processed normally. -/
theorem C6_witness :
    hatchPathsForLight (frameOfW degLight) (updatedMeshes [sampleMesh]) degLight = [] ∧
    generateHatchLines frameOfW [sampleMesh] ([] ++ degLight :: [sampleDirLight])
        sampleCamera =
      generateHatchLines frameOfW [sampleMesh] [] sampleCamera ++
        generateHatchLines frameOfW [sampleMesh] [sampleDirLight] sampleCamera :=
  C6_degenerate_light_skipped frameOfW [sampleMesh] [] [sampleDirLight] degLight
    sampleCamera (Or.inl ⟨rfl, Or.inr (Or.inl (by decide))⟩)

/-- C8 (amended): the call mutates nothing except the cached world matrix
of each non-helper mesh, which `updateMatrixWorld(true)` overwrites with
the matrix recomposed from the local transform before processing (and not
at all when the call short-circuits on an empty mesh or light list); every
other mesh field is unchanged.  The lights and the camera are only read. -/
theorem C8_mutation_only_matrixWorld (objectMeshes : List MeshData)
    (lights : List SceneLight) :
    (generateHatchLinesFinalMeshes objectMeshes lights).map meshLocalData =
      objectMeshes.map meshLocalData ∧
    (generateHatchLinesFinalMeshes objectMeshes lights = objectMeshes ∨
     generateHatchLinesFinalMeshes objectMeshes lights = updatedMeshes objectMeshes) := by
  constructor
  · unfold generateHatchLinesFinalMeshes
    split
    · rfl
    · unfold updatedMeshes
      rw [List.map_map]
      apply List.map_congr_left
      intro m _
      simp only [Function.comp_apply]
      split
      · rfl
      · rfl
  · unfold generateHatchLinesFinalMeshes
    split
    · exact Or.inl rfl
    · exact Or.inr rfl

/-- C8 counterexample to the claim as stated: a mesh whose cached world
matrix is stale (identity, while the local transform carries translation
`(1,0,0)`) comes back from the call with a different `matrixWorld` — the
input mesh list is mutated. -/
theorem C8_counterexample :
    generateHatchLinesFinalMeshes [staleMesh] [sampleDirLight] ≠ [staleMesh] ∧
    (generateHatchLinesFinalMeshes [staleMesh] [sampleDirLight]).map
        (fun m => m.matrixWorld) ≠ [staleMesh.matrixWorld] := by
  constructor
  · decide
  · decide

end HatchPlot
